import Mathlib

/-!
Shallow embedding of the LED controller core (`src/LEDService.py`,
`src/lib/PerformanceMonitor.py`) of WindowsVistaisCool/dorm-proj.

Time is modelled with `ℚ` (seconds).  `time.time()` readings and theme
behaviour are supplied as explicit oracles.  Side effects (sleeps, error
callback invocations, pixel-sink calls, performance recordings) are
accumulated in traces inside the state.
-/

namespace DormProj

/-! ## Performance monitor (`PerformanceMonitor.record_led_frame`) -/

/-- The fields of `PerformanceMonitor` relevant to LED-frame metrics:
`led_frame_times`, `led_fps`, `led_frame_time`. -/
structure PerfState where
  led_frame_times : List (ℚ × ℚ)
  led_fps : ℚ
  led_frame_time : ℚ
deriving Repr, DecidableEq

/-- `PerformanceMonitor.__init__`: metrics start at `0.0`, empty sample list. -/
def PerfState.init : PerfState :=
  { led_frame_times := [], led_fps := 0, led_frame_time := 0 }

/-- The sample list after the append and the 1-second prune of
`record_led_frame`: append `(current_time, frame_time)`, keep entries with
`t > current_time - 1.0`. -/
def perfWindow (st : PerfState) (current_time frame_time : ℚ) : List (ℚ × ℚ) :=
  (st.led_frame_times ++ [(current_time, frame_time)]).filter
    (fun p => current_time - 1 < p.1)

/-- `led_frame_times[-1][0] - led_frame_times[0][0]` (callers guarantee the
list is nonempty, so the defaults are never consulted). -/
def perfSpan (w : List (ℚ × ℚ)) : ℚ :=
  (w.getLastD (0, 0)).1 - (w.headD (0, 0)).1

/-- `PerformanceMonitor.record_led_frame(frame_time)`.  `current_time` is the
`time.time()` reading taken at the top of the method. -/
def record_led_frame (st : PerfState) (current_time frame_time : ℚ) : PerfState :=
  if 1 < (perfWindow st current_time frame_time).length then
    if 0 < perfSpan (perfWindow st current_time frame_time) then
      { led_frame_times := perfWindow st current_time frame_time
        led_fps := (perfWindow st current_time frame_time).length /
          perfSpan (perfWindow st current_time frame_time)
        led_frame_time := ((perfWindow st current_time frame_time).map Prod.snd).sum /
          (perfWindow st current_time frame_time).length }
    else
      { st with led_frame_times := perfWindow st current_time frame_time }
  else
    { st with led_frame_times := perfWindow st current_time frame_time }

/-! ## Themes (`LEDTheme` plugin interface) -/

/-- Outcome of one call to a theme's `runLoop` (per-frame step): it returns
`None` (continue), returns some value (stop), or raises an exception whose
formatted traceback is `msg`. -/
inductive StepRes where
  | goOn
  | stop
  | raiseExc (msg : String)
deriving Repr, DecidableEq

/-- A theme, as consumed by `LEDService`: a string `id`, the outcome of
`runInit` (`none` = success, `some msg` = exception with traceback `msg`),
and the outcome of the k-th `runLoop` call within an episode.
`passApp`/`passArgs` only store references on the theme object and are
modelled as no-ops. -/
structure LEDTheme where
  id : String
  initRes : Option String
  stepRes : ℕ → StepRes

/-- Modelled from the spec: `LEDThemes.null()` lives in `LEDLoops.py`, which
is not part of the core sources.  Per the spec the null theme has
`id = "null"`, its `initialize` is a no-op and its `step` returns `Continue`
forever. -/
def LEDThemes.null : LEDTheme :=
  { id := "null", initRes := none, stepRes := fun _ => .goOn }

/-! ## Pixel sink (`rpi_ws281x.PixelStrip`) -/

/-- One call into the pixel sink. -/
inductive SinkOp where
  | setPixel (i : ℕ) (c : ℕ)
  | setBright (b : ℤ)
  | showPixels
deriving Repr, DecidableEq

/-- `rpi_ws281x.Color(red, green, blue)`: 24-bit packed color
`(red << 16) | (green << 8) | blue`. -/
def wsColor (r g b : ℕ) : ℕ :=
  (r <<< 16) ||| ((g <<< 8) ||| b)

/-- The pixel strip: the pixel buffer, the brightness register, and a trace
of every sink call issued. -/
structure PixelStrip where
  pixels : List ℕ
  brightness : ℤ
  trace : List SinkOp

/-- `strip.setPixelColor(i, c)`. -/
def PixelStrip.setPixelColor (s : PixelStrip) (i : ℕ) (c : ℕ) : PixelStrip :=
  { s with pixels := s.pixels.set i c, trace := s.trace ++ [.setPixel i c] }

/-- `strip.setBrightness(b)`. -/
def PixelStrip.setBright (s : PixelStrip) (b : ℤ) : PixelStrip :=
  { s with brightness := b, trace := s.trace ++ [.setBright b] }

/-- `strip.show()` (flush). -/
def PixelStrip.showPixels (s : PixelStrip) : PixelStrip :=
  { s with trace := s.trace ++ [.showPixels] }

/-! ## `LEDService` state -/

/-- The mutable state of an `LEDService` instance, together with the local
`last_frame_time` of `_ledLoopTarget` and the effect traces:
`sleeps` records every `time.sleep` issued (seconds), `errors` records every
`errorCallback` invocation, `recorded` records every `record_led_frame`
argument. -/
structure LEDState where
  loop : Option LEDTheme
  breakLoopEvent : Bool
  loopChangeEvent : Bool
  isRunning : Bool
  isChangingLoop : Bool
  hasChangeTimedOut : Bool
  strip : PixelStrip
  lastFrameTime : ℚ
  sleeps : List ℚ
  errors : List String
  recorded : List ℚ

/-- `LEDService.LED_COUNT`. -/
def LED_COUNT : ℕ := 300

/-- `time.sleep(q)`: appended to the sleep trace. -/
def doSleep (q : ℚ) (st : LEDState) : LEDState :=
  { st with sleeps := st.sleeps ++ [q] }

/-- `self.errorCallback(msg)`: appended to the error trace. -/
def reportError (msg : String) (st : LEDState) : LEDState :=
  { st with errors := st.errors ++ [msg] }

/-! ## `LEDService.setLoop` -/

/-- Body of `setLoop` past the in-progress guard, with the current theme id
`curId` (the value of `self.loop.id`) made explicit.  Sequential net effect
of lines 151-172: substitute the null theme for a falsy argument, return if
the requested id equals the current id while no switch is in progress,
otherwise set both events, sleep the 50 ms grace period, install the new
theme and clear the timed-out/in-progress flags. -/
def setLoopCore (st : LEDState) (curId : String) (arg : Option LEDTheme) : LEDState :=
  let l := match arg with
    | none => LEDThemes.null
    | some t => t
  if l.id = curId ∧ st.isChangingLoop = false then st
  else
    { st with
      isChangingLoop := false
      breakLoopEvent := true
      loopChangeEvent := true
      sleeps := st.sleeps ++ [(1 : ℚ)/20]
      loop := some l
      hasChangeTimedOut := false }

/-- `LEDService.setLoop(loop)`.  Returns `none` when the Python code would
raise (`self.loop.id` with `self.loop is None`); that state is unreachable
because `__init__` installs the null theme and `setLoop` never installs
`None`. -/
def setLoop (st : LEDState) (arg : Option LEDTheme) : Option LEDState :=
  if st.isChangingLoop = true ∧ st.hasChangeTimedOut = false then some st
  else
    match st.loop with
    | none => none
    | some cur => some (setLoopCore st cur.id arg)

/-! ## `LEDService.setBrightness`, `setSolid`, `off` -/

/-- `LEDService.setBrightness(brightness)`: `int(brightness) & 0xFF` (for a
Python int this is exactly `brightness mod 256`, always in `0..255`), then
`show()`. -/
def setBrightness (st : LEDState) (brightness : ℤ) : LEDState :=
  { st with strip := (st.strip.setBright (brightness % 256)).showPixels }

/-- The `for i in range(LED_COUNT): self.leds.setPixelColor(i, Color(r,g,b))`
loop of `setSolid`. -/
def solidFill (s : PixelStrip) (c : ℕ) (n : ℕ) : PixelStrip :=
  (List.range n).foldl (fun s i => s.setPixelColor i c) s

/-- `LEDService.setSolid(r, g, b)`: switch to the null theme, then write the
solid color to every pixel and flush. -/
def setSolid (st : LEDState) (r g b : ℕ) : Option LEDState :=
  (setLoop st (some LEDThemes.null)).map fun st1 =>
    { st1 with strip := (solidFill st1.strip (wsColor r g b) LED_COUNT).showPixels }

/-- `LEDService.off()`. -/
def ledOff (st : LEDState) : Option LEDState :=
  setSolid st 0 0 0

/-! ## The render worker (`LEDService._ledLoopTarget`) -/

/-- The `time.time()` readings taken during one inner-loop frame iteration:
at line `frame_start = time.time()`, at `frame_elapsed = time.time() - frame_start`,
at the yield check `time.time() - last_frame_time > 0.016`, and at
`last_frame_time = time.time()` inside the yield branch. -/
structure FrameClock where
  tStart : ℚ
  tAfter : ℚ
  tYield : ℚ
  tYield2 : ℚ

/-- The frame-pacing target `frame_time_target = 1.0 / 60.0`. -/
def frame_time_target : ℚ := 1 / 60

/-- The condition of the inner `while` loop (line 114):
`not breakLoopEvent and isRunning and not loopChangeEvent`. -/
def innerLoopCond (st : LEDState) : Bool :=
  !st.breakLoopEvent && st.isRunning && !st.loopChangeEvent

/-- One iteration of the inner frame loop (lines 115-140), for the k-th
`runLoop` call of theme `l` with clock readings `c`.  The returned `Bool` is
`true` when the iteration executes `break`. -/
def runFrame (st : LEDState) (l : LEDTheme) (k : ℕ) (c : FrameClock) :
    LEDState × Bool :=
  match l.stepRes k with
  | .stop => ({ st with breakLoopEvent := true }, true)
  | .raiseExc msg =>
      ({ reportError msg st with breakLoopEvent := true }, true)
  | .goOn =>
      let frame_elapsed := c.tAfter - c.tStart
      let st := { st with recorded := st.recorded ++ [frame_elapsed] }
      let sleep_time := max 0 (frame_time_target - frame_elapsed)
      let st := if 0 < sleep_time then doSleep sleep_time st else st
      let st :=
        if (16 : ℚ)/1000 < c.tYield - st.lastFrameTime then
          { doSleep ((1 : ℚ)/1000) st with lastFrameTime := c.tYield2 }
        else st
      (st, false)

/-- The inner frame loop (lines 114-140), driven by a list of clock readings
as fuel.  The `Bool` is `true` when the loop exited (condition false or
`break`), `false` when the fuel ran out mid-loop. -/
def runInner (l : LEDTheme) : LEDState → ℕ → List FrameClock → LEDState × Bool
  | st, _, [] => (st, !innerLoopCond st)
  | st, k, c :: rest =>
    if innerLoopCond st then
      let (st', brk) := runFrame st l k c
      if brk then (st', true) else runInner l st' (k + 1) rest
    else (st, true)

/-- One pass of the outer `while self._isRunning` loop of `_ledLoopTarget`
(lines 91-144): idle checks, episode initialization with its failure path,
the inner frame loop, and the event-clearing epilogue (run only when the
inner loop actually exited rather than running out of fuel). -/
def ledIterate (st : LEDState) (clocks : List FrameClock) : LEDState :=
  if st.isRunning = false then st
  else
    match st.loop with
    | none => doSleep ((1 : ℚ)/100) st
    | some l =>
      if l.id = "null" then doSleep ((1 : ℚ)/100) st
      else if st.isChangingLoop = true then doSleep ((1 : ℚ)/100) st
      else
        match l.initRes with
        | some msg =>
            let st1 := reportError ("Failed to initialize loop " ++ l.id ++ ": " ++ msg) st
            let st2 := doSleep ((1 : ℚ)/10) st1
            (setLoop st2 (some LEDThemes.null)).getD st2
        | none =>
            let (st', exited) := runInner l st 0 clocks
            if exited then
              { st' with breakLoopEvent := false, loopChangeEvent := false }
            else st'

/-! ## Concrete fixtures for witnesses and counterexamples -/

/-- A sample well-behaved theme. -/
def themeA : LEDTheme :=
  { id := "A", initRes := none, stepRes := fun _ => .goOn }

/-- A theme whose `runInit` always raises. -/
def themeBadInit : LEDTheme :=
  { id := "bad", initRes := some "boom", stepRes := fun _ => .goOn }

/-- A theme whose first `runLoop` call raises. -/
def themeBadStep : LEDTheme :=
  { id := "crashy", initRes := none, stepRes := fun _ => .raiseExc "tb" }

/-- A pixel strip as built in `__init__`: `LED_COUNT` pixels, brightness 255. -/
def stripInit : PixelStrip :=
  { pixels := List.replicate LED_COUNT 0, brightness := 255, trace := [] }

/-- A quiescent service state running theme `themeA`. -/
def stateA : LEDState :=
  { loop := some themeA
    breakLoopEvent := false
    loopChangeEvent := false
    isRunning := true
    isChangingLoop := false
    hasChangeTimedOut := false
    strip := stripInit
    lastFrameTime := 0
    sleeps := []
    errors := []
    recorded := [] }

/-- `stateA` observed in the middle of a (non-timed-out) switch. -/
def stateChanging : LEDState :=
  { stateA with isChangingLoop := true }

/-- `stateA` with the failing-`runInit` theme current. -/
def stateBadInit : LEDState :=
  { stateA with loop := some themeBadInit }

/-- `stateA` with the step-raising theme current. -/
def stateBadStep : LEDState :=
  { stateA with loop := some themeBadStep }

/-- `stateA` idling on the null theme. -/
def stateNull : LEDState :=
  { stateA with loop := some LEDThemes.null }

/-- A frame whose `step` took 20 ms (over the 16.667 ms budget) and whose
yield check fires. -/
def clockSlow : FrameClock :=
  { tStart := 0, tAfter := 1/50, tYield := 1/50, tYield2 := 1/50 }

/-- A frame whose `step` took 10 ms (under budget). -/
def clockFast : FrameClock :=
  { tStart := 0, tAfter := 1/100, tYield := 1/100, tYield2 := 1/100 }

/-- First concrete recording: a 10 ms frame at time 0 s. -/
def perf1 : PerfState := record_led_frame PerfState.init 0 (1/100)

/-- Second concrete recording, 0.5 s in: the window holds two samples, so
the metrics are recomputed (`led_fps = 2 / 0.5 = 4`). -/
def perf2 : PerfState := record_led_frame perf1 (1/2) (1/100)

/-- Third concrete recording at 10 s: pruning leaves a single sample. -/
def perf3 : PerfState := record_led_frame perf2 10 (1/100)

/-! ## Helper lemmas -/

theorem perf1_eq :
    perf1 = { led_frame_times := [((0 : ℚ), (1 : ℚ)/100)], led_fps := 0,
              led_frame_time := 0 } := by
  have w : perfWindow PerfState.init 0 (1/100) = [((0 : ℚ), (1 : ℚ)/100)] := by
    norm_num [perfWindow, PerfState.init, List.filter]
  unfold perf1 record_led_frame
  rw [w]
  norm_num [PerfState.init]

theorem perfWindow2_eq :
    perfWindow perf1 ((1 : ℚ)/2) ((1 : ℚ)/100) =
      [((0 : ℚ), (1 : ℚ)/100), ((1 : ℚ)/2, (1 : ℚ)/100)] := by
  rw [perfWindow, perf1_eq]
  norm_num [List.filter]

theorem perf2_eq :
    perf2 = { led_frame_times := [((0 : ℚ), (1 : ℚ)/100), ((1 : ℚ)/2, (1 : ℚ)/100)],
              led_fps := 4, led_frame_time := 1/100 } := by
  unfold perf2 record_led_frame
  rw [perfWindow2_eq]
  norm_num [perfSpan, List.getLastD, List.headD, perf1_eq]

theorem perf3_eq :
    perf3 = { led_frame_times := [((10 : ℚ), (1 : ℚ)/100)], led_fps := 4,
              led_frame_time := 1/100 } := by
  have w : perfWindow perf2 10 (1/100) = [((10 : ℚ), (1 : ℚ)/100)] := by
    rw [perfWindow, perf2_eq]
    norm_num [List.filter]
  unfold perf3 record_led_frame
  rw [w]
  norm_num [perf2_eq]

theorem runFrame_goOn_eq (st : LEDState) (l : LEDTheme) (k : ℕ) (c : FrameClock)
    (hstep : l.stepRes k = .goOn) :
    (runFrame st l k c).2 = false ∧
    (runFrame st l k c).1.recorded = st.recorded ++ [c.tAfter - c.tStart] ∧
    (runFrame st l k c).1.sleeps =
      st.sleeps
        ++ (if frame_time_target ≤ c.tAfter - c.tStart then []
            else [frame_time_target - (c.tAfter - c.tStart)])
        ++ (if (16 : ℚ)/1000 < c.tYield - st.lastFrameTime then [(1 : ℚ)/1000]
            else []) ∧
    (runFrame st l k c).1.lastFrameTime =
      (if (16 : ℚ)/1000 < c.tYield - st.lastFrameTime then c.tYield2
       else st.lastFrameTime) ∧
    (runFrame st l k c).1.strip = st.strip ∧
    (runFrame st l k c).1.errors = st.errors := by
  unfold runFrame
  rw [hstep]
  by_cases hp : 0 < frame_time_target - (c.tAfter - c.tStart)
  · have hmax : max 0 (frame_time_target - (c.tAfter - c.tStart)) =
        frame_time_target - (c.tAfter - c.tStart) := max_eq_right (le_of_lt hp)
    have hnle : ¬ frame_time_target ≤ c.tAfter - c.tStart := by linarith
    by_cases hy : (16 : ℚ)/1000 < c.tYield - st.lastFrameTime
    · simp [doSleep, hmax, hp, hy, hnle, List.append_assoc]
    · simp [doSleep, hmax, hp, hy, hnle]
  · have hmax : max 0 (frame_time_target - (c.tAfter - c.tStart)) = 0 :=
      max_eq_left (by linarith)
    have hle : frame_time_target ≤ c.tAfter - c.tStart := by linarith
    by_cases hy : (16 : ℚ)/1000 < c.tYield - st.lastFrameTime
    · simp [doSleep, hmax, hy, hle]
    · simp [doSleep, hmax, hy, hle]

theorem set_append_length {α : Type} (xs : List α) (b : α) (ys : List α) :
    (xs ++ ys).set xs.length b = xs ++ ys.set 0 b := by
  induction xs with
  | nil => rfl
  | cons x xs ih => simp [List.set, ih]

theorem solidFill_succ (s : PixelStrip) (c n : ℕ) :
    solidFill s c (n + 1) = (solidFill s c n).setPixelColor n c := by
  unfold solidFill
  rw [List.range_succ, List.foldl_append]
  rfl

theorem solidFill_trace (s : PixelStrip) (c n : ℕ) :
    (solidFill s c n).trace =
      s.trace ++ (List.range n).map (fun i => SinkOp.setPixel i c) := by
  induction n with
  | zero => simp [solidFill]
  | succ n ih =>
    rw [solidFill_succ]
    simp [PixelStrip.setPixelColor, ih, List.range_succ]

theorem solidFill_pixels (s : PixelStrip) (c : ℕ) :
    ∀ n, n ≤ s.pixels.length →
      (solidFill s c n).pixels = List.replicate n c ++ s.pixels.drop n := by
  intro n
  induction n with
  | zero => intro _; simp [solidFill]
  | succ n ih =>
    intro h
    have hn : n < s.pixels.length := h
    rw [solidFill_succ]
    show ((solidFill s c n).pixels).set n c = _
    rw [ih (le_of_lt hn)]
    have hd : s.pixels.drop n = s.pixels[n] :: s.pixels.drop (n + 1) :=
      List.drop_eq_getElem_cons hn
    rw [hd]
    have hlenrep : (List.replicate n c).length = n := List.length_replicate n c
    calc (List.replicate n c ++ s.pixels[n] :: s.pixels.drop (n + 1)).set n c
        = (List.replicate n c ++ s.pixels[n] :: s.pixels.drop (n + 1)).set
            (List.replicate n c).length c := by rw [hlenrep]
      _ = List.replicate n c ++ (s.pixels[n] :: s.pixels.drop (n + 1)).set 0 c :=
          set_append_length _ _ _
      _ = List.replicate (n + 1) c ++ s.pixels.drop (n + 1) := by
          simp [List.replicate_succ', List.set]

theorem setLoop_null_effect (st : LEDState) (cur : LEDTheme)
    (hchg : st.isChangingLoop = false) (hloop : st.loop = some cur) :
    ∃ st1, setLoop st (some LEDThemes.null) = some st1 ∧
      st1.strip = st.strip ∧ st1.isRunning = st.isRunning ∧
      ∃ l, st1.loop = some l ∧ l.id = "null" := by
  have hg : setLoop st (some LEDThemes.null) =
      some (setLoopCore st cur.id (some LEDThemes.null)) := by
    simp [setLoop, hchg, hloop]
  by_cases hc : cur.id = "null"
  · refine ⟨st, ?_, rfl, rfl, cur, hloop, hc⟩
    rw [hg]
    simp [setLoopCore, hchg, hc, LEDThemes.null]
  · have hne : ¬ ((LEDThemes.null).id = cur.id ∧ st.isChangingLoop = false) :=
      fun h => hc h.1.symm
    refine ⟨setLoopCore st cur.id (some LEDThemes.null), hg, ?_, ?_, LEDThemes.null, ?_, rfl⟩ <;>
      rw [setLoopCore, if_neg hne]

/-! ## C3 -/

/-- C3: while a switch is in progress and has not timed out, `setLoop` is a
no-op for every theme argument: it returns with the entire controller state
(current theme, both interrupt events, all switching flags) unchanged. -/
theorem setLoop_noop_while_changing (st : LEDState) (arg : Option LEDTheme)
    (h1 : st.isChangingLoop = true) (h2 : st.hasChangeTimedOut = false) :
    setLoop st arg = some st := by
  simp [setLoop, h1, h2]

/-- Witness for C3 at a concrete mid-switch state. -/
theorem setLoop_noop_while_changing_witness :
    setLoop stateChanging (some themeBadInit) = some stateChanging :=
  setLoop_noop_while_changing stateChanging (some themeBadInit) rfl rfl

/-! ## C4 -/

/-- C4: when no switch is in progress and the requested theme's id equals the
current theme's id, `setLoop` returns with the state unchanged — no flags
raised, no interrupt events set, hence no re-initialization of the theme;
a second successive `setLoop` with the same id is a no-op. -/
theorem setLoop_idempotent_same_id (st : LEDState) (cur l : LEDTheme)
    (hchg : st.isChangingLoop = false) (hloop : st.loop = some cur)
    (hid : l.id = cur.id) :
    setLoop st (some l) = some st := by
  simp [setLoop, hchg, hloop, setLoopCore, hid]

/-- Witness for C4: re-requesting the already-current theme id. -/
theorem setLoop_idempotent_same_id_witness :
    setLoop stateA (some themeA) = some stateA :=
  setLoop_idempotent_same_id stateA themeA themeA rfl rfl rfl

/-! ## C10 -/

/-- C10: a `setLoop` call whose argument is absent/falsy substitutes the
registry's null theme, so whenever the call is not dropped by the
in-progress-switch guard, the current theme afterwards has id `"null"`;
`None` is never installed as the current theme. -/
theorem setLoop_falsy_installs_null (st : LEDState) (cur : LEDTheme)
    (hguard : ¬ (st.isChangingLoop = true ∧ st.hasChangeTimedOut = false))
    (hloop : st.loop = some cur) :
    ∃ st' l, setLoop st none = some st' ∧ st'.loop = some l ∧ l.id = "null" := by
  have h1 : setLoop st none = some (setLoopCore st cur.id none) := by
    simp [setLoop, hguard, hloop]
  by_cases hc : (LEDThemes.null).id = cur.id ∧ st.isChangingLoop = false
  · refine ⟨st, cur, ?_, hloop, hc.1.symm⟩
    rw [h1]
    simp [setLoopCore, hc.1, hc.2]
  · refine ⟨setLoopCore st cur.id none, LEDThemes.null, h1, ?_, rfl⟩
    simp [setLoopCore, hc]

/-- Witness for C10: `setLoop` with a falsy argument on `stateA`. -/
theorem setLoop_falsy_installs_null_witness :
    ∃ st' l, setLoop stateA none = some st' ∧ st'.loop = some l ∧ l.id = "null" :=
  setLoop_falsy_installs_null stateA themeA (by simp [stateA]) rfl

/-! ## C9 -/

/-- C9 counterexample: the claim says inputs above 255 map to 255, but
`setBrightness(300)` executes `300 & 0xFF`, leaving the sink brightness at
44, not at the clamped value `min (max 300 0) 255 = 255`. -/
theorem setBrightness_not_clamp_counterexample :
    (setBrightness stateA 300).strip.brightness = 44 ∧
    (setBrightness stateA 300).strip.brightness ≠ min (max (300 : ℤ) 0) 255 := by
  constructor <;> decide

/-- C9 (amended): `setBrightness(v)` reduces `v` modulo 256 (the Python
`int(v) & 0xFF` mask, which wraps rather than clamps), stores the result —
always within `0..255` — as the sink brightness, and then flushes the sink;
no other controller state is touched. -/
theorem setBrightness_masks_and_flushes (st : LEDState) (v : ℤ) :
    setBrightness st v =
      { st with strip :=
        { st.strip with
          brightness := v % 256
          trace := (st.strip.trace ++ [SinkOp.setBright (v % 256)]) ++ [SinkOp.showPixels] } } ∧
    0 ≤ v % 256 ∧ v % 256 < 256 := by
  refine ⟨rfl, Int.emod_nonneg v (by norm_num), Int.emod_lt_of_pos v (by norm_num)⟩

/-! ## C6 -/

/-- C6: when the worker observes an absent current theme or the null theme
(id `"null"`), the whole iteration is a 10 ms sleep: the theme's
`initialize`/`step` are not invoked, no pixel-sink call is issued, and no
other state changes. -/
theorem idle_null_theme_iteration (st : LEDState) (clocks : List FrameClock)
    (hrun : st.isRunning = true)
    (hnull : st.loop = none ∨ ∃ l, st.loop = some l ∧ l.id = "null") :
    ledIterate st clocks = { st with sleeps := st.sleeps ++ [(1 : ℚ)/100] } ∧
    (ledIterate st clocks).strip = st.strip := by
  rcases hnull with h | ⟨l, h, hid⟩
  · refine ⟨?_, ?_⟩ <;> simp [ledIterate, hrun, h, doSleep]
  · refine ⟨?_, ?_⟩ <;> simp [ledIterate, hrun, h, hid, doSleep]

/-- Witness for C6 on a concrete state idling on the null theme. -/
theorem idle_null_theme_iteration_witness :
    ledIterate stateNull [clockFast] =
      { stateNull with sleeps := stateNull.sleeps ++ [(1 : ℚ)/100] } ∧
    (ledIterate stateNull [clockFast]).strip = stateNull.strip :=
  idle_null_theme_iteration stateNull [clockFast] rfl (Or.inr ⟨LEDThemes.null, rfl, rfl⟩)

/-! ## C2 -/

/-- C2: when the current (non-null) theme's `runInit` raises, the iteration
reports the failure through the error callback exactly once, sleeps the
100 ms backoff, and via `setLoop(LEDThemes.null())` (with its 50 ms grace
sleep) forces the current theme back to the null theme, raising both
interrupt events; `isRunning` is untouched, so the worker loop keeps
running and re-evaluates. -/
theorem init_failure_recovery (st : LEDState) (l : LEDTheme) (msg : String)
    (clocks : List FrameClock)
    (hrun : st.isRunning = true) (hloop : st.loop = some l)
    (hid : ¬ l.id = "null") (hchg : st.isChangingLoop = false)
    (hinit : l.initRes = some msg) :
    ledIterate st clocks =
      { st with
        errors := st.errors ++ ["Failed to initialize loop " ++ l.id ++ ": " ++ msg]
        sleeps := st.sleeps ++ [(1 : ℚ)/10, (1 : ℚ)/20]
        loop := some LEDThemes.null
        breakLoopEvent := true
        loopChangeEvent := true
        hasChangeTimedOut := false } := by
  have hne : ¬ "null" = l.id := fun h => hid h.symm
  simp only [ledIterate, hrun, hloop, hid, hinit, reportError, doSleep, setLoop,
    setLoopCore, hchg, if_false, if_neg hid]
  simp [hchg, LEDThemes.null, hne]

/-- Witness for C2: one iteration on a theme whose `runInit` raises. -/
theorem init_failure_recovery_witness :
    ledIterate stateBadInit [] =
      { stateBadInit with
        errors := stateBadInit.errors ++ ["Failed to initialize loop bad: boom"]
        sleeps := stateBadInit.sleeps ++ [(1 : ℚ)/10, (1 : ℚ)/20]
        loop := some LEDThemes.null
        breakLoopEvent := true
        loopChangeEvent := true
        hasChangeTimedOut := false } := by
  have h := init_failure_recovery stateBadInit themeBadInit "boom" [] rfl rfl
    (by decide) rfl rfl
  exact h

/-! ## C1 -/

/-- C1: a step-time exception during a Running-state frame is caught inside
the worker: the error callback receives the traceback, `breakLoopEvent` is
set and the inner frame loop exits at once (whatever fuel remains), and the
full iteration leaves the worker state unchanged except for the reported
error — events cleared, `isRunning` still true, so the worker re-evaluates
from the top (Idle) and keeps running. -/
theorem step_fault_ends_episode (st : LEDState) (l : LEDTheme) (msg : String)
    (c : FrameClock) (rest : List FrameClock)
    (hrun : st.isRunning = true) (hloop : st.loop = some l)
    (hid : ¬ l.id = "null") (hchg : st.isChangingLoop = false)
    (hinit : l.initRes = none)
    (hbrk : st.breakLoopEvent = false) (hchev : st.loopChangeEvent = false)
    (hstep : l.stepRes 0 = .raiseExc msg) :
    (∀ (st0 : LEDState) (k : ℕ), innerLoopCond st0 = true →
        l.stepRes k = .raiseExc msg →
        runInner l st0 k (c :: rest) =
          ({ st0 with errors := st0.errors ++ [msg], breakLoopEvent := true }, true)) ∧
    ledIterate st (c :: rest) = { st with errors := st.errors ++ [msg] } := by
  have hinner : ∀ (st0 : LEDState) (k : ℕ), innerLoopCond st0 = true →
      l.stepRes k = .raiseExc msg →
      runInner l st0 k (c :: rest) =
        ({ st0 with errors := st0.errors ++ [msg], breakLoopEvent := true }, true) := by
    intro st0 k hcond hk
    simp [runInner, hcond, runFrame, hk, reportError]
  refine ⟨hinner, ?_⟩
  have hcond : innerLoopCond st = true := by
    simp [innerLoopCond, hbrk, hchev, hrun]
  have h2 := hinner st 0 hcond hstep
  simp only [ledIterate, hrun, hloop, hid, hinit, if_neg hid]
  simp only [hchg]
  simp only [if_false, h2]
  simp [hbrk, hchev, hloop, hrun, hchg]

/-- Witness for C1: one iteration on a theme whose first `runLoop` raises. -/
theorem step_fault_ends_episode_witness :
    ledIterate stateBadStep [clockFast] =
      { stateBadStep with errors := stateBadStep.errors ++ ["tb"] } :=
  (step_fault_ends_episode stateBadStep themeBadStep "tb" clockFast [] rfl rfl
    (by decide) rfl rfl rfl rfl rfl).2

/-! ## C7 -/

/-- C7 counterexample: the claim states that when `elapsed ≥ target_period`
the worker performs no sleep at all in that frame iteration, yet on a
concrete 20 ms frame (over the 1/60 s budget) with more than 16 ms since the
last yield, the frame iteration still sleeps 1 ms (the "brief yield" of
lines 137-140): the sleep trace grows by `[1/1000]`, not `[]`. -/
theorem frame_overrun_still_sleeps :
    frame_time_target ≤ clockSlow.tAfter - clockSlow.tStart ∧
    (runFrame stateA themeA 0 clockSlow).1.sleeps = [(1 : ℚ)/1000] ∧
    (runFrame stateA themeA 0 clockSlow).1.sleeps ≠ stateA.sleeps := by
  have h2 : (runFrame stateA themeA 0 clockSlow).1.sleeps = [(1 : ℚ)/1000] := by
    have h := (runFrame_goOn_eq stateA themeA 0 clockSlow rfl).2.2.1
    rw [h]
    norm_num [stateA, clockSlow, frame_time_target]
  refine ⟨by norm_num [frame_time_target, clockSlow], h2, ?_⟩
  rw [h2]
  simp [stateA]

/-- C7 (amended): each Running-state frame iteration on a `Continue` step
records the elapsed time, issues the pacing sleep `max(0, target_period -
elapsed)` only when it is positive (so no pacing sleep when the step overran
the 1/60 s budget), and additionally issues a 1 ms yield sleep — updating
`last_frame_time` — exactly when more than 16 ms of wall time passed since
the last yield; the loop then proceeds to the next frame without `break`. -/
theorem frame_pacing (st : LEDState) (l : LEDTheme) (k : ℕ) (c : FrameClock)
    (hstep : l.stepRes k = .goOn) :
    (runFrame st l k c).2 = false ∧
    (runFrame st l k c).1.recorded = st.recorded ++ [c.tAfter - c.tStart] ∧
    (runFrame st l k c).1.sleeps =
      st.sleeps
        ++ (if frame_time_target ≤ c.tAfter - c.tStart then []
            else [frame_time_target - (c.tAfter - c.tStart)])
        ++ (if (16 : ℚ)/1000 < c.tYield - st.lastFrameTime then [(1 : ℚ)/1000]
            else []) ∧
    (runFrame st l k c).1.lastFrameTime =
      (if (16 : ℚ)/1000 < c.tYield - st.lastFrameTime then c.tYield2
       else st.lastFrameTime) ∧
    (runFrame st l k c).1.strip = st.strip ∧
    (runFrame st l k c).1.errors = st.errors :=
  runFrame_goOn_eq st l k c hstep

/-- Witness for C7 at a concrete under-budget frame. -/
theorem frame_pacing_witness :
    (runFrame stateA themeA 0 clockFast).2 = false ∧
    (runFrame stateA themeA 0 clockFast).1.recorded =
      stateA.recorded ++ [clockFast.tAfter - clockFast.tStart] ∧
    (runFrame stateA themeA 0 clockFast).1.sleeps =
      stateA.sleeps
        ++ (if frame_time_target ≤ clockFast.tAfter - clockFast.tStart then []
            else [frame_time_target - (clockFast.tAfter - clockFast.tStart)])
        ++ (if (16 : ℚ)/1000 < clockFast.tYield - stateA.lastFrameTime
            then [(1 : ℚ)/1000] else []) ∧
    (runFrame stateA themeA 0 clockFast).1.lastFrameTime =
      (if (16 : ℚ)/1000 < clockFast.tYield - stateA.lastFrameTime
       then clockFast.tYield2 else stateA.lastFrameTime) ∧
    (runFrame stateA themeA 0 clockFast).1.strip = stateA.strip ∧
    (runFrame stateA themeA 0 clockFast).1.errors = stateA.errors :=
  frame_pacing stateA themeA 0 clockFast rfl

/-! ## C8 -/

/-- C8 counterexample: the claim says that whenever fewer than 2 samples
remain in the window both reported metrics are 0; after the third concrete
recording (times 0 s, 0.5 s, 10 s) the pruned window holds a single sample,
yet `led_fps` is still 4 and `led_frame_time` still 1/100 — the code leaves
the previous values in place instead of resetting them to 0. -/
theorem perf_metrics_stale_counterexample :
    perf3.led_frame_times.length < 2 ∧ perf3.led_fps ≠ 0 ∧
    perf3.led_frame_time ≠ 0 := by
  rw [perf3_eq]
  norm_num

/-- C8 (amended): `record_led_frame` appends `(now, duration)` and prunes to
the trailing 1-second window (every retained timestamp exceeds `now - 1`);
when the pruned window holds at least 2 samples spanning positive time,
`led_fps` is recomputed as `count / (newest - oldest)` and `led_frame_time`
as the mean of the retained durations; otherwise both metrics retain their
previous values (they are 0 only until the first recomputation). -/
theorem record_led_frame_spec (st : PerfState) (now d : ℚ) :
    (∀ p ∈ (record_led_frame st now d).led_frame_times, now - 1 < p.1) ∧
    (record_led_frame st now d).led_frame_times = perfWindow st now d ∧
    (1 < (perfWindow st now d).length ∧ 0 < perfSpan (perfWindow st now d) →
      (record_led_frame st now d).led_fps =
        (perfWindow st now d).length / perfSpan (perfWindow st now d) ∧
      (record_led_frame st now d).led_frame_time =
        ((perfWindow st now d).map Prod.snd).sum / (perfWindow st now d).length) ∧
    ((perfWindow st now d).length ≤ 1 ∨ perfSpan (perfWindow st now d) ≤ 0 →
      (record_led_frame st now d).led_fps = st.led_fps ∧
      (record_led_frame st now d).led_frame_time = st.led_frame_time) := by
  have hw : (record_led_frame st now d).led_frame_times = perfWindow st now d := by
    unfold record_led_frame
    split_ifs <;> rfl
  refine ⟨?_, hw, ?_, ?_⟩
  · intro p hp
    rw [hw] at hp
    have := List.of_mem_filter hp
    simpa using this
  · rintro ⟨h1, h2⟩
    unfold record_led_frame
    rw [if_pos h1, if_pos h2]
    exact ⟨rfl, rfl⟩
  · intro h
    unfold record_led_frame
    rcases h with h | h
    · rw [if_neg (by omega)]
      exact ⟨rfl, rfl⟩
    · split_ifs with h1 h2
      · exact absurd h2 (not_lt.mpr h)
      · exact ⟨rfl, rfl⟩
      · exact ⟨rfl, rfl⟩

/-- Witness for C8: the recomputation branch fires on the second concrete
recording, giving `led_fps = 2 / 0.5 = 4`. -/
theorem record_led_frame_spec_witness : perf2.led_fps = (4 : ℚ) := by
  have hlen : 1 < (perfWindow perf1 ((1 : ℚ)/2) ((1 : ℚ)/100)).length := by
    rw [perfWindow2_eq]
    norm_num
  have hspan : 0 < perfSpan (perfWindow perf1 ((1 : ℚ)/2) ((1 : ℚ)/100)) := by
    rw [perfWindow2_eq]
    norm_num [perfSpan, List.getLastD, List.headD]
  have h := ((record_led_frame_spec perf1 ((1 : ℚ)/2) ((1 : ℚ)/100)).2.2.1
    ⟨hlen, hspan⟩).1
  refine h.trans ?_
  rw [perfWindow2_eq]
  norm_num [perfSpan, List.getLastD, List.headD]

/-! ## C5 -/

set_option maxRecDepth 10000 in
/-- C5: `setSolid(r,g,b)` first switches the current theme to the null theme
(the sink trace shows the pixel writes coming only after the switch), then
sets every pixel `0..LED_COUNT-1` to the packed color `(r,g,b)` and flushes
the sink; `off()` is literally `setSolid(0,0,0)`, so after `off()` every
pixel holds `(0,0,0)` and the current theme is the null theme.  Stated for
any quiescent state (no switch currently in progress) with a well-formed
strip. -/
theorem setSolid_spec (st : LEDState) (cur : LEDTheme) (r g b : ℕ)
    (hchg : st.isChangingLoop = false) (hloop : st.loop = some cur)
    (hlen : st.strip.pixels.length = LED_COUNT) :
    ∃ st', setSolid st r g b = some st' ∧
      (∃ l, st'.loop = some l ∧ l.id = "null") ∧
      st'.strip.pixels = List.replicate LED_COUNT (wsColor r g b) ∧
      st'.strip.trace = st.strip.trace ++
        ((List.range LED_COUNT).map fun i => SinkOp.setPixel i (wsColor r g b)) ++
        [SinkOp.showPixels] ∧
      ledOff st = setSolid st 0 0 0 ∧
      st'.isRunning = st.isRunning := by
  obtain ⟨st1, hsl, hstrip, hrun, hnull⟩ := setLoop_null_effect st cur hchg hloop
  refine ⟨{ st1 with
      strip := (solidFill st1.strip (wsColor r g b) LED_COUNT).showPixels },
    ?_, ?_, ?_, ?_, rfl, hrun⟩
  · simp [setSolid, hsl]
  · simpa using hnull
  · have hlen1 : st1.strip.pixels.length = LED_COUNT := by rw [hstrip, hlen]
    simp only [PixelStrip.showPixels]
    rw [solidFill_pixels st1.strip (wsColor r g b) LED_COUNT (le_of_eq hlen1.symm)]
    rw [List.drop_eq_nil_of_le (le_of_eq hlen1)]
    simp
  · simp only [PixelStrip.showPixels]
    rw [solidFill_trace, hstrip]

set_option maxRecDepth 4000 in
/-- Witness for C5: `off()` from the concrete running state `stateA`. -/
theorem setSolid_spec_witness :
    ∃ st', setSolid stateA 0 0 0 = some st' ∧
      (∃ l, st'.loop = some l ∧ l.id = "null") ∧
      st'.strip.pixels = List.replicate LED_COUNT (wsColor 0 0 0) ∧
      st'.strip.trace = stateA.strip.trace ++
        ((List.range LED_COUNT).map fun i => SinkOp.setPixel i (wsColor 0 0 0)) ++
        [SinkOp.showPixels] ∧
      ledOff stateA = setSolid stateA 0 0 0 ∧
      st'.isRunning = stateA.isRunning :=
  setSolid_spec stateA themeA 0 0 0 rfl rfl (List.length_replicate _ _)

end DormProj
